import Mathlib

/-!
Verification development for the chaos-scheduler repository
(src/chaos-scheduler/chaos-scheduler.py and src/chaos-scheduler/toggle-flags.py).

The pure parts of the two Python scripts are embedded shallowly: dictionaries
become association lists (Python dictionaries preserve insertion order, and
List.lookup returns the first matching key, so the two agree on the literal
tables used here), Python int becomes Nat or Int, and fallible lookups return
Option. Wall-clock time in the scheduler loop is modelled as an idealized
integer clock that every sleep advances by exactly the requested amount, and
the outcome of each external Setter invocation is an oracle parameter.
-/

/-! ## Wire values (toggle-flags.py)

Python transmits booleans, ints and floats as flag variant values. Every
numeric literal appearing in the source is exactly representable, so numbers
are modelled as rationals.
-/

inductive Value
  | vBool (b : Bool)
  | vNum (q : ℚ)
deriving DecidableEq, Repr

/-- The list `boolean_flags` of toggle-flags.py (lines 51-54, repeated at
lines 99-102). -/
def boolean_flags : List String :=
  ["productCatalogFailure", "recommendationCacheFailure", "adManualGc",
   "adHighCpu", "adFailure", "cartFailure", "paymentUnreachable"]

/-- The list `numeric_flags` of toggle-flags.py (line 56, repeated at 104). -/
def numeric_flags : List String :=
  ["kafkaQueueProblems", "loadGeneratorFloodHomepage"]

/-- Function `get_variant_value` of toggle-flags.py (lines 49-94): the variant value
for a given flag and variant name, None (here none) when the flag is unknown
or the variant is not in the table of that flag. -/
def get_variant_value (flag_name variant : String) : Option Value :=
  if flag_name ∈ boolean_flags then
    if variant = "on" then some (Value.vBool true)
    else if variant = "off" then some (Value.vBool false)
    else none
  else if flag_name ∈ numeric_flags then
    if variant = "on" then some (Value.vNum 100)
    else if variant = "off" then some (Value.vNum 0)
    else none
  else if flag_name = "paymentFailure" then
    (([("100%", Value.vNum 1), ("90%", Value.vNum 0.95), ("75%", Value.vNum 0.75),
       ("50%", Value.vNum 0.5), ("25%", Value.vNum 0.25), ("10%", Value.vNum 0.1),
       ("off", Value.vNum 0)] : List (String × Value)).lookup variant)
  else if flag_name = "imageSlowLoad" then
    (([("10sec", Value.vNum 10000), ("5sec", Value.vNum 5000),
       ("off", Value.vNum 0)] : List (String × Value)).lookup variant)
  else none

/-- Function `get_all_variants` of toggle-flags.py (lines 97-123): the full
variant-to-value table of a flag, used when building the JSON document. -/
def get_all_variants (flag_name : String) : List (String × Value) :=
  if flag_name ∈ boolean_flags then
    [("on", Value.vBool true), ("off", Value.vBool false)]
  else if flag_name ∈ numeric_flags then
    [("on", Value.vNum 100), ("off", Value.vNum 0)]
  else if flag_name = "paymentFailure" then
    [("100%", Value.vNum 1), ("90%", Value.vNum 0.95), ("75%", Value.vNum 0.75),
     ("50%", Value.vNum 0.5), ("25%", Value.vNum 0.25), ("10%", Value.vNum 0.1),
     ("off", Value.vNum 0)]
  else if flag_name = "imageSlowLoad" then
    [("10sec", Value.vNum 10000), ("5sec", Value.vNum 5000), ("off", Value.vNum 0)]
  else []

/-- Function `get_flag_description` of toggle-flags.py (lines 126-141). -/
def get_flag_description (flag_name : String) : String :=
  ((([("productCatalogFailure", "Fail product catalog service on a specific product"),
      ("recommendationCacheFailure", "Fail recommendation service cache"),
      ("adManualGc", "Triggers full manual garbage collections in the ad service"),
      ("adHighCpu", "Triggers high cpu load in the ad service"),
      ("adFailure", "Fail ad service"),
      ("kafkaQueueProblems", "Overloads Kafka queue while simultaneously introducing a consumer side delay leading to a lag spike"),
      ("cartFailure", "Fail cart service"),
      ("paymentFailure", "Fail payment service charge requests n%"),
      ("paymentUnreachable", "Payment service is unavailable"),
      ("loadGeneratorFloodHomepage", "Flood the frontend with a large amount of requests."),
      ("imageSlowLoad", "slow loading images in the frontend")] :
        List (String × String)).lookup flag_name).getD "")

/-- The list `all_flags` of toggle-flags.py (lines 146-151): the eleven known
faults, in source order. -/
def all_flags : List String :=
  ["productCatalogFailure", "recommendationCacheFailure", "adManualGc",
   "adHighCpu", "adFailure", "kafkaQueueProblems", "cartFailure",
   "paymentFailure", "paymentUnreachable", "loadGeneratorFloodHomepage",
   "imageSlowLoad"]

/-- One entry of the flags object built by `construct_json`. -/
structure FlagEntry where
  description : String
  state : String
  variants : List (String × Value)
  defaultVariant : String
deriving DecidableEq, Repr

/-- The payload of `construct_json`: the schema string and the flags object
(association list keyed by flag name, in insertion order). -/
structure FlagDocument where
  schema : String
  flags : List (String × FlagEntry)
deriving DecidableEq, Repr

/-- Function `construct_json` of toggle-flags.py (lines 144-178): the complete JSON
document sent on every write. -/
def construct_json (target_flag target_variant : String) : FlagDocument :=
  { schema := "https://flagd.dev/schema/v0/flags.json",
    flags := all_flags.map fun flag_name =>
      let default_variant :=
        if flag_name = target_flag then target_variant
        else if flag_name = "productCatalogFailure" then "on"
        else "off"
      (flag_name,
        { description := get_flag_description flag_name,
          state := "ENABLED",
          variants := get_all_variants flag_name,
          defaultVariant := default_variant }) }

/-- Result of the HTTP POST in `set_flag`: a status code, or a raised
requests exception (connection failure or timeout). -/
inductive HttpResult
  | status (code : Nat)
  | exn
deriving DecidableEq, Repr

/-- Function `set_flag` of toggle-flags.py (lines 209-244). The HTTP layer is an
oracle mapping the posted document to an HttpResult. Returns the success
flag together with the list of documents actually posted to the write
endpoint, so that the absence of network traffic is observable. -/
def set_flag (http : FlagDocument → HttpResult) (flag_name variant : String) :
    Bool × List FlagDocument :=
  match get_variant_value flag_name variant with
  | none => (false, [])
  | some _ =>
    let json_payload := construct_json flag_name variant
    match http json_payload with
    | HttpResult.status code => (code == 200 || code == 201, [json_payload])
    | HttpResult.exn => (false, [json_payload])

/-! ## Interval parsing (chaos-scheduler.py) -/

/-- The dictionary `unit_multipliers` of chaos-scheduler.py (lines 79-84). -/
def unit_multipliers : List (String × Nat) :=
  [("sec", 1), ("second", 1), ("seconds", 1),
   ("min", 60), ("minute", 60), ("minutes", 60),
   ("h", 3600), ("hour", 3600), ("hours", 3600),
   ("day", 86400), ("days", 86400)]

/-- Decimal value of a digit run, as Python int() computes it. -/
def natOfDigits (cs : List Char) : Nat :=
  cs.foldl (fun n c => n * 10 + (c.toNat - 48)) 0

/-- Function `parse_interval` of chaos-scheduler.py (lines 70-90). The regex
re.match of `(\d+)([a-zA-Z]+)` anchors at the start of the string only: it
takes the maximal leading digit run, then the maximal letter run after it,
and ignores anything that follows. Digits are modelled as ASCII digits. A
failed match, or an unknown unit, yields 0. -/
def parse_interval (interval_str : String) : Nat :=
  let cs := interval_str.toList
  let digits := cs.takeWhile Char.isDigit
  let rest := cs.dropWhile Char.isDigit
  let letters := rest.takeWhile Char.isAlpha
  if digits.isEmpty || letters.isEmpty then 0
  else
    match unit_multipliers.lookup (String.mk (letters.map Char.toLower)) with
    | none => 0
    | some multiplier => natOfDigits digits * multiplier

/-- The interval grammar exactly as the specification states it: a positive
integer immediately followed by a unit from the table, case-insensitive,
with nothing else in the string. -/
def spec_interval_grammar (s : String) : Bool :=
  let cs := s.toList
  let digits := cs.takeWhile Char.isDigit
  let rest := cs.dropWhile Char.isDigit
  !digits.isEmpty && decide (0 < natOfDigits digits) && !rest.isEmpty &&
    rest.all Char.isAlpha &&
    (unit_multipliers.lookup (String.mk (rest.map Char.toLower))).isSome

/-- The second count the specification assigns to a string of the grammar:
the integer times the multiplier of its unit. -/
def spec_interval_seconds (s : String) : Nat :=
  let cs := s.toList
  let digits := cs.takeWhile Char.isDigit
  let rest := cs.dropWhile Char.isDigit
  natOfDigits digits *
    ((unit_multipliers.lookup (String.mk (rest.map Char.toLower))).getD 0)

/-! ## The chaos driver (chaos-scheduler.py)

The driver draws random numbers from the seeded generator of the Python
random module, sleeps, and invokes toggle-flags.py as a subprocess.
-/

/-- Modelled from the spec: the seeded pseudo-random generator of the Python
random module is not part of the repository sources. The specification only
requires a deterministic generator seeded once at startup, so the raw draw
stream is modelled as a pure function of the seed and a draw counter that is
threaded through the loop; the concrete mixing function is irrelevant to
every property proved below. -/
def randSource (seed ctr : Nat) : Nat :=
  ((seed + 1) * 2654435761 + ctr * 40503 + 12345) % 4294967296

/-- Modelled from the spec: random.randint(a, b) draws an integer in the
inclusive range a..b from the generator stream. -/
def randint (seed ctr : Nat) (a b : Int) : Int :=
  a + (randSource seed ctr : Int) % (b - a + 1)

/-- Modelled from the spec: random.choice(xs) draws one element of a
nonempty sequence from the generator stream. -/
def choice (seed ctr : Nat) : List String → String
  | [] => ""
  | a :: t =>
    (a :: t).get ⟨randSource seed ctr % (a :: t).length, Nat.mod_lt _ (Nat.succ_pos _)⟩

/-- The dictionary `available_flags` of chaos-scheduler.py (lines 30-42):
each flag with its non-off variants, in insertion order. -/
def available_flags : List (String × List String) :=
  [("productCatalogFailure", ["on"]),
   ("recommendationCacheFailure", ["on"]),
   ("adManualGc", ["on"]),
   ("adHighCpu", ["on"]),
   ("adFailure", ["on"]),
   ("kafkaQueueProblems", ["on"]),
   ("cartFailure", ["on"]),
   ("paymentFailure", ["100%", "90%", "75%", "50%", "25%", "10%"]),
   ("paymentUnreachable", ["on"]),
   ("loadGeneratorFloodHomepage", ["on"]),
   ("imageSlowLoad", ["10sec", "5sec"])]

/-- The flag names, list(self.available_flags.keys()), in source order. -/
def flag_names : List String := available_flags.map Prod.fst

/-- Function `get_random_flag_variant` of chaos-scheduler.py (lines 114-118): one
choice over the flag names, then one choice over the variants of the chosen
flag. Consumes two positions of the draw stream starting at ctr. -/
def get_random_flag_variant (seed ctr : Nat) : String × String :=
  let flag_name := choice seed ctr flag_names
  let variant := choice seed (ctr + 1) ((available_flags.lookup flag_name).getD [])
  (flag_name, variant)

/-- Observable actions of one run of the driver loop: blocking sleeps,
subprocess invocations of toggle-flags.py with their outcome, and dry-run
announcements (which invoke nothing). -/
inductive Event
  | sleep (t : Int)
  | run (flag variant : String) (ok : Bool)
  | dryRun (flag variant : String)
deriving DecidableEq, Repr

/-- Method `set_flag` of chaos-scheduler.py (lines 120-149). In dry-run mode it
logs the command and returns True without invoking anything; otherwise the
subprocess outcome is an oracle indexed by the number of invocations made so
far. Returns the result, the emitted events and the next invocation index. -/
def scheduler_set_flag (dry : Bool) (oracle : Nat → Bool) (ci : Nat)
    (flag_name variant : String) : Bool × List Event × Nat :=
  if dry then (true, [Event.dryRun flag_name variant], ci)
  else (oracle ci, [Event.run flag_name variant (oracle ci)], ci + 1)

/-- State carried across loop iterations: the draw-stream counter, the
idealized wall clock (seconds), and the subprocess invocation counter. -/
structure LoopState where
  ctr : Nat
  now : Int
  callIdx : Nat
deriving DecidableEq, Repr

/-- One interval draw: the tuple the reproducibility contract is about. -/
structure Draw where
  offset : Int
  flag : String
  variant : String
  duration : Int
deriving DecidableEq, Repr

/-- One iteration of the while-loop body of `chaos_loop` of
chaos-scheduler.py (lines 168-226), under the idealized clock in which every
sleep advances time by exactly the requested amount and everything else is
instantaneous. Returns the draws of the interval (none when the interval
ended before the flag could be triggered), the emitted events, and the next
state. -/
def chaosStep (seed : Nat) (L : Int) (dry : Bool) (oracle : Nat → Bool)
    (st : LoopState) : Option Draw × List Event × LoopState :=
  let interval_start := st.now
  let interval_end := interval_start + L
  let random_offset := randint seed st.ctr 0 (max 0 (L - 1))
  let trigger_time := interval_start + random_offset
  let sleep1 : List Event :=
    if st.now < trigger_time then [Event.sleep (trigger_time - st.now)] else []
  let now1 := if st.now < trigger_time then trigger_time else st.now
  let fv := get_random_flag_variant seed (st.ctr + 1)
  let remaining_time := interval_end - now1
  if remaining_time ≤ 0 then
    (none, sleep1, { ctr := st.ctr + 3, now := now1, callIdx := st.callIdx })
  else
    let flag_duration := randint seed (st.ctr + 3) 1 (max 1 remaining_time)
    let act := scheduler_set_flag dry oracle st.callIdx fv.1 fv.2
    let afterAct :=
      if act.1 then
        let rev := scheduler_set_flag dry oracle act.2.2 fv.1 "off"
        (Event.sleep flag_duration :: rev.2.1, now1 + flag_duration, rev.2.2)
      else (([] : List Event), now1, act.2.2)
    let wait_time := interval_end - afterAct.2.1
    let sleepEnd : List Event :=
      if afterAct.2.1 < interval_end ∧ 0 < wait_time then [Event.sleep wait_time] else []
    let now3 := if afterAct.2.1 < interval_end ∧ 0 < wait_time then interval_end else afterAct.2.1
    (some ⟨random_offset, fv.1, fv.2, flag_duration⟩,
      sleep1 ++ act.2.1 ++ afterAct.1 ++ sleepEnd,
      { ctr := st.ctr + 4, now := now3, callIdx := afterAct.2.2 })

/-- Runs n intervals of the chaos loop, collecting per-interval draws and
the concatenated event stream. -/
def chaosRun (seed : Nat) (L : Int) (dry : Bool) (oracle : Nat → Bool)
    (st : LoopState) : Nat → List (Option Draw) × List Event × LoopState
  | 0 => ([], [], st)
  | n + 1 =>
    let s := chaosStep seed L dry oracle st
    let r := chaosRun seed L dry oracle s.2.2 n
    (s.1 :: r.1, s.2.1 ++ r.2.1, r.2.2)

/-- Loop state at process start: fresh generator position, process start
time t0, no invocations yet. -/
def initState (t0 : Int) : LoopState := ⟨0, t0, 0⟩

/-- The draw of an interval whose generator counter starts at c, as a pure
function of seed, interval length and counter. -/
def drawAtCtr (seed : Nat) (L : Int) (c : Nat) : Draw :=
  let offset := randint seed c 0 (max 0 (L - 1))
  let fv := get_random_flag_variant seed (c + 1)
  ⟨offset, fv.1, fv.2, randint seed (c + 3) 1 (max 1 (L - offset))⟩

/-- The draw of interval number k (counting from 0): each interval consumes
exactly four positions of the draw stream. -/
def drawAt (seed : Nat) (L : Int) (k : Nat) : Draw :=
  drawAtCtr seed L (4 * k)

/-- The events of one interval in closed form: a function of the seed, the
interval length, the dry-run flag, the setter oracle and the two counters,
but not of the clock. -/
def stepEventsC (seed : Nat) (L : Int) (dry : Bool) (oracle : Nat → Bool)
    (c ci : Nat) : List Event :=
  let off := randint seed c 0 (max 0 (L - 1))
  let fv := get_random_flag_variant seed (c + 1)
  let dur := randint seed (c + 3) 1 (max 1 (L - off))
  (if 0 < off then [Event.sleep off] else []) ++
  (if dry then
     [Event.dryRun fv.1 fv.2, Event.sleep dur, Event.dryRun fv.1 "off"] ++
     (if 0 < L - off - dur then [Event.sleep (L - off - dur)] else [])
   else if oracle ci then
     [Event.run fv.1 fv.2 true, Event.sleep dur, Event.run fv.1 "off" (oracle (ci + 1))] ++
     (if 0 < L - off - dur then [Event.sleep (L - off - dur)] else [])
   else
     Event.run fv.1 fv.2 false ::
     (if 0 < L - off then [Event.sleep (L - off)] else []))

/-- Invocation counter after one interval, in closed form. -/
def stepCallsC (dry : Bool) (oracle : Nat → Bool) (ci : Nat) : Nat :=
  if dry then ci else if oracle ci then ci + 2 else ci + 1

/-- Recognizes subprocess invocations of toggle-flags.py in an event stream. -/
def isRunEvent : Event → Bool
  | Event.run _ _ _ => true
  | _ => false

/-- Recognizes blocking sleeps in an event stream. -/
def isSleepEvent : Event → Bool
  | Event.sleep _ => true
  | _ => false

/-- Recognizes revert invocations, that is subprocess calls setting a flag
to the variant off. -/
def isOffRunEvent : Event → Bool
  | Event.run _ v _ => v == "off"
  | _ => false

/-- Recognizes failed subprocess invocations. -/
def isFailedRunEvent : Event → Bool
  | Event.run _ _ ok => !ok
  | _ => false

/-- The fault catalog exactly as the table of section 6 of the specification
lists it: for each fault its active variants with their documented wire
values, plus the variant off mapping to false or 0 according to the type of
the fault. -/
def spec_catalog : List (String × List (String × Value)) :=
  [("productCatalogFailure", [("on", Value.vBool true), ("off", Value.vBool false)]),
   ("recommendationCacheFailure", [("on", Value.vBool true), ("off", Value.vBool false)]),
   ("adManualGc", [("on", Value.vBool true), ("off", Value.vBool false)]),
   ("adHighCpu", [("on", Value.vBool true), ("off", Value.vBool false)]),
   ("adFailure", [("on", Value.vBool true), ("off", Value.vBool false)]),
   ("kafkaQueueProblems", [("on", Value.vNum 100), ("off", Value.vNum 0)]),
   ("cartFailure", [("on", Value.vBool true), ("off", Value.vBool false)]),
   ("paymentFailure",
     [("100%", Value.vNum 1), ("90%", Value.vNum 0.95), ("75%", Value.vNum 0.75),
      ("50%", Value.vNum 0.5), ("25%", Value.vNum 0.25), ("10%", Value.vNum 0.1),
      ("off", Value.vNum 0)]),
   ("paymentUnreachable", [("on", Value.vBool true), ("off", Value.vBool false)]),
   ("loadGeneratorFloodHomepage", [("on", Value.vNum 100), ("off", Value.vNum 0)]),
   ("imageSlowLoad",
     [("10sec", Value.vNum 10000), ("5sec", Value.vNum 5000), ("off", Value.vNum 0)])]

/-- The documented wire value of a fault and variant pair according to the
specification table: some value for pairs in the table, none otherwise. -/
def spec_resolveValue (fault variant : String) : Option Value :=
  ((spec_catalog.lookup fault).getD []).lookup variant

theorem randint_bounds (seed ctr : Nat) {a b : Int} (h : a ≤ b) :
    a ≤ randint seed ctr a b ∧ randint seed ctr a b ≤ b := by
  unfold randint
  have hne : b - a + 1 ≠ 0 := by omega
  have h0 : 0 ≤ (randSource seed ctr : Int) % (b - a + 1) :=
    Int.emod_nonneg _ hne
  have h1 : (randSource seed ctr : Int) % (b - a + 1) < b - a + 1 :=
    Int.emod_lt_of_pos _ (by omega)
  omega

set_option maxRecDepth 8000 in
theorem chaosStep_char (seed : Nat) (L : Int) (dry : Bool) (oracle : Nat → Bool)
    (c : Nat) (t : Int) (ci : Nat) (hL : 1 ≤ L) :
    chaosStep seed L dry oracle ⟨c, t, ci⟩ =
      (some (drawAtCtr seed L c), stepEventsC seed L dry oracle c ci,
        ⟨c + 4, t + L, stepCallsC dry oracle ci⟩) := by
  unfold chaosStep drawAtCtr stepEventsC stepCallsC scheduler_set_flag
  simp only []
  rw [max_eq_right (by omega : (0:ℤ) ≤ L - 1)]
  set off := randint seed c 0 (L - 1) with hoffdef
  obtain ⟨ho1, ho2⟩ := randint_bounds seed c (by omega : (0:ℤ) ≤ L - 1)
  rw [← hoffdef] at ho1 ho2
  have hrem : 1 ≤ L - off := by omega
  have hite_sleep : (if t < t + off then [Event.sleep (t + off - t)] else []) =
      (if 0 < off then [Event.sleep off] else ([] : List Event)) := by
    split_ifs with h1 h2 h2
    · simp
    · omega
    · omega
    · rfl
  have hite_now : (if t < t + off then t + off else t) = t + off := by
    split_ifs with h1
    · rfl
    · omega
  rw [hite_sleep, hite_now]
  rw [show t + L - (t + off) = L - off from by ring]
  rw [if_neg (by omega : ¬(L - off ≤ 0))]
  rw [max_eq_right hrem]
  set dur := randint seed (c + 3) 1 (L - off) with hdurdef
  obtain ⟨hd1, hd2⟩ := randint_bounds seed (c + 3) (by omega : (1:ℤ) ≤ L - off)
  rw [← hdurdef] at hd1 hd2
  cases dry with
  | true =>
    simp only [eq_self_iff_true, if_true]
    simp only [show t + L - (t + off + dur) = L - off - dur from by ring]
    simp only [show (t + off + dur < t + L ∧ 0 < L - off - dur) ↔ (0 < L - off - dur) from
      by omega]
    split_ifs <;>
      simp only [List.append_assoc, List.nil_append, List.append_nil, List.singleton_append, List.cons_append, Prod.mk.injEq,
        LoopState.mk.injEq, Option.some.injEq, Draw.mk.injEq, true_and, and_true,
        eq_self_iff_true, and_self] <;>
      omega
  | false =>
    simp only [Bool.false_eq_true, if_false]
    by_cases hor : oracle ci = true
    · simp only [hor, if_true]
      simp only [show t + L - (t + off + dur) = L - off - dur from by ring]
      simp only [show (t + off + dur < t + L ∧ 0 < L - off - dur) ↔ (0 < L - off - dur) from
        by omega]
      split_ifs <;>
        simp only [List.append_assoc, List.nil_append, List.append_nil, List.singleton_append, List.cons_append, Prod.mk.injEq,
          LoopState.mk.injEq, Option.some.injEq, Draw.mk.injEq, true_and, and_true,
          eq_self_iff_true, and_self] <;>
        omega
    · simp only [hor, Bool.false_eq_true, if_false]
      simp only [show t + L - (t + off) = L - off from by ring]
      simp only [show (t + off < t + L ∧ 0 < L - off) ↔ (0 < L - off) from by omega]
      split_ifs <;>
        simp only [List.append_assoc, List.nil_append, List.append_nil, List.cons_append,
          List.singleton_append, Prod.mk.injEq, LoopState.mk.injEq, Option.some.injEq, Draw.mk.injEq, true_and,
          and_true, eq_self_iff_true, and_self] <;>
        omega

theorem chaosRun_draws (seed : Nat) (L : Int) (dry : Bool) (oracle : Nat → Bool)
    (hL : 1 ≤ L) : ∀ (n : Nat) (c : Nat) (t : Int) (ci : Nat),
    (chaosRun seed L dry oracle ⟨c, t, ci⟩ n).1 =
      (List.range n).map (fun k => some (drawAtCtr seed L (c + 4 * k))) := by
  intro n
  induction n with
  | zero => intro c t ci; simp [chaosRun]
  | succ n ih =>
    intro c t ci
    simp only [chaosRun]
    rw [chaosStep_char seed L dry oracle c t ci hL]
    simp only []
    rw [ih (c + 4) (t + L) (stepCallsC dry oracle ci)]
    rw [List.range_succ_eq_map]
    simp only [List.map_cons, List.map_map, Function.comp, Nat.mul_zero, Nat.add_zero]
    rw [List.map_congr_left (fun k _ => by rw [show c + 4 + 4 * k = c + 4 * (k + 1) from by ring])]
    simp [Function.comp_def, Nat.succ_eq_add_one]

theorem drawAtCtr_bounds (seed : Nat) (L : Int) (c : Nat) (hL : 1 ≤ L) :
    0 ≤ (drawAtCtr seed L c).offset ∧ (drawAtCtr seed L c).offset ≤ L - 1 ∧
      1 ≤ (drawAtCtr seed L c).duration ∧
      (drawAtCtr seed L c).duration ≤ L - (drawAtCtr seed L c).offset := by
  simp only [drawAtCtr]
  rw [max_eq_right (by omega : (0:ℤ) ≤ L - 1)]
  set off := randint seed c 0 (L - 1) with hoffdef
  obtain ⟨ho1, ho2⟩ := randint_bounds seed c (by omega : (0:ℤ) ≤ L - 1)
  rw [← hoffdef] at ho1 ho2
  have hrem : 1 ≤ L - off := by omega
  rw [max_eq_right hrem]
  obtain ⟨hd1, hd2⟩ := randint_bounds seed (c + 3) hrem
  exact ⟨ho1, ho2, hd1, hd2⟩

/-- C1: for every seed s and interval length L of at least 10 seconds, the
ordered sequence of (offset, fault, variant, activeDuration) draws of the
first n intervals of the chaos loop equals a pure function of (s, L, n): it
does not depend on the process start time, on the dry-run flag, or on the
outcome of any Setter invocation, so two runs with identical seed and
interval length produce identical draw sequences. -/
theorem chaos_draws_deterministic (seed : Nat) (L t0 : Int) (dry : Bool)
    (oracle : Nat → Bool) (n : Nat) (hL : 10 ≤ L) :
    (chaosRun seed L dry oracle (initState t0) n).1 =
      (List.range n).map (fun k => some (drawAt seed L k)) := by
  have h := chaosRun_draws seed L dry oracle (by omega) n 0 t0 0
  simpa [initState, drawAt] using h

theorem chaos_draws_deterministic_witness :
    (chaosRun 0 10 false (fun _ => false) (initState 0) 2).1 =
      (List.range 2).map (fun k => some (drawAt 0 10 k)) :=
  chaos_draws_deterministic 0 10 0 false (fun _ => false) 2 (by norm_num)

/-- C6: in every interval of length L at least 10 and from every generator
state, the loop draws an offset in the range 0 to L - 1 and then an
activeDuration in the range 1 to L - offset. -/
theorem chaos_offset_duration_bounds (seed : Nat) (L : Int) (dry : Bool)
    (oracle : Nat → Bool) (c : Nat) (t : Int) (ci : Nat) (hL : 10 ≤ L) :
    ∃ d, (chaosStep seed L dry oracle ⟨c, t, ci⟩).1 = some d ∧
      0 ≤ d.offset ∧ d.offset ≤ L - 1 ∧ 1 ≤ d.duration ∧
      d.duration ≤ L - d.offset := by
  obtain ⟨h1, h2, h3, h4⟩ := drawAtCtr_bounds seed L c (by omega)
  exact ⟨drawAtCtr seed L c,
    by rw [chaosStep_char seed L dry oracle c t ci (by omega)], h1, h2, h3, h4⟩

theorem chaos_offset_duration_bounds_witness :
    ∃ d, (chaosStep 0 10 false (fun _ => false) ⟨0, 0, 0⟩).1 = some d ∧
      0 ≤ d.offset ∧ d.offset ≤ 10 - 1 ∧ 1 ≤ d.duration ∧
      d.duration ≤ 10 - d.offset :=
  chaos_offset_duration_bounds 0 10 false (fun _ => false) 0 0 0 (by norm_num)

/-- C2 counterexample: a concrete interval (seed 0, interval length 10,
every Setter invocation failing) in which the activation invocation fails
and the driver makes no revert-to-off invocation at all: the claim that a
failed activation is still followed by the activeDuration hold and the
revert call is false on this code. -/
theorem failed_activation_no_revert_cex :
    ((chaosStep 0 10 false (fun _ => false) ⟨0, 0, 0⟩).2.1.any isFailedRunEvent = true) ∧
    ((chaosStep 0 10 false (fun _ => false) ⟨0, 0, 0⟩).2.1.filter isOffRunEvent = []) := by
  constructor
  · decide
  · decide

/-- C2 (amended): in an interval whose Setter activation invocation fails,
the driver makes that failed invocation and no other: the activeDuration
hold and the revert-to-off invocation are skipped, and the driver proceeds
directly to the end of the interval. -/
theorem failed_activation_skips_hold_and_revert (seed : Nat) (L : Int)
    (oracle : Nat → Bool) (c : Nat) (t : Int) (ci : Nat) (hL : 10 ≤ L)
    (hfail : oracle ci = false) :
    ((chaosStep seed L false oracle ⟨c, t, ci⟩).2.1.filter isRunEvent =
        [Event.run (drawAtCtr seed L c).flag (drawAtCtr seed L c).variant false]) ∧
    (chaosStep seed L false oracle ⟨c, t, ci⟩).2.2.now = t + L := by
  rw [chaosStep_char seed L false oracle c t ci (by omega)]
  refine ⟨?_, rfl⟩
  simp only [stepEventsC, drawAtCtr, hfail, Bool.false_eq_true, if_false]
  split_ifs <;> simp [isRunEvent, List.filter]

theorem failed_activation_skips_hold_and_revert_witness :
    ((chaosStep 0 10 false (fun _ => false) ⟨0, 0, 0⟩).2.1.filter isRunEvent =
        [Event.run (drawAtCtr 0 10 0).flag (drawAtCtr 0 10 0).variant false]) ∧
    (chaosStep 0 10 false (fun _ => false) ⟨0, 0, 0⟩).2.2.now = 0 + 10 :=
  failed_activation_skips_hold_and_revert 0 10 (fun _ => false) 0 0 0 (by norm_num) rfl

theorem stepEventsC_dry_no_run (seed : Nat) (L : Int) (oracle : Nat → Bool)
    (c ci : Nat) :
    (stepEventsC seed L true oracle c ci).filter isRunEvent = [] := by
  simp only [stepEventsC]
  split_ifs <;> simp_all [isRunEvent, List.filter]

theorem stepEventsC_dry_wet_sleeps (seed : Nat) (L : Int) (oracle : Nat → Bool)
    (c ci ci' : Nat) :
    (stepEventsC seed L true oracle c ci).filter isSleepEvent =
      (stepEventsC seed L false (fun _ => true) c ci').filter isSleepEvent := by
  simp only [stepEventsC]
  split_ifs <;> simp_all [isSleepEvent, List.filter]

theorem chaosRun_dry_wet (seed : Nat) (L : Int) (oracle : Nat → Bool) (hL : 1 ≤ L) :
    ∀ (n c : Nat) (t : Int) (ci ci' : Nat),
      ((chaosRun seed L true oracle ⟨c, t, ci⟩ n).2.1.filter isRunEvent = []) ∧
      ((chaosRun seed L true oracle ⟨c, t, ci⟩ n).2.1.filter isSleepEvent =
        (chaosRun seed L false (fun _ => true) ⟨c, t, ci'⟩ n).2.1.filter isSleepEvent) := by
  intro n
  induction n with
  | zero => intro c t ci ci'; simp [chaosRun]
  | succ n ih =>
    intro c t ci ci'
    simp only [chaosRun]
    rw [chaosStep_char seed L true oracle c t ci hL,
        chaosStep_char seed L false (fun _ => true) c t ci' hL]
    simp only [List.filter_append]
    obtain ⟨ih1, ih2⟩ := ih (c + 4) (t + L) (stepCallsC true oracle ci)
      (stepCallsC false (fun _ => true) ci')
    rw [ih1, ih2, stepEventsC_dry_no_run, stepEventsC_dry_wet_sleeps seed L oracle c ci ci']
    simp

/-- C8: with dry-run enabled the driver emits no subprocess invocation in
any loop iteration, its set_flag always reports success without consulting
the subprocess oracle, and the timing of the loop (the multiset and order
of blocking sleeps) and the sequence of draws are exactly those of a run in
which every real Setter invocation succeeds. -/
theorem dry_run_no_network_same_timing (seed : Nat) (L t0 : Int)
    (oracle : Nat → Bool) (n : Nat) (hL : 10 ≤ L) :
    ((chaosRun seed L true oracle (initState t0) n).2.1.filter isRunEvent = []) ∧
    ((chaosRun seed L true oracle (initState t0) n).2.1.filter isSleepEvent =
      (chaosRun seed L false (fun _ => true) (initState t0) n).2.1.filter isSleepEvent) ∧
    ((chaosRun seed L true oracle (initState t0) n).1 =
      (chaosRun seed L false (fun _ => true) (initState t0) n).1) ∧
    (∀ ci f v, scheduler_set_flag true oracle ci f v = (true, [Event.dryRun f v], ci)) := by
  obtain ⟨h1, h2⟩ := chaosRun_dry_wet seed L oracle (by omega) n 0 t0 0 0
  refine ⟨h1, h2, ?_, fun ci f v => rfl⟩
  rw [show initState t0 = ⟨0, t0, 0⟩ from rfl,
    chaosRun_draws seed L true oracle (by omega) n 0 t0 0,
    chaosRun_draws seed L false (fun _ => true) (by omega) n 0 t0 0]

theorem dry_run_no_network_same_timing_witness :
    ((chaosRun 0 10 true (fun _ => false) (initState 0) 1).2.1.filter isRunEvent = []) ∧
    ((chaosRun 0 10 true (fun _ => false) (initState 0) 1).2.1.filter isSleepEvent =
      (chaosRun 0 10 false (fun _ => true) (initState 0) 1).2.1.filter isSleepEvent) ∧
    ((chaosRun 0 10 true (fun _ => false) (initState 0) 1).1 =
      (chaosRun 0 10 false (fun _ => true) (initState 0) 1).1) ∧
    (∀ ci f v, scheduler_set_flag true (fun _ => false) ci f v =
      (true, [Event.dryRun f v], ci)) :=
  dry_run_no_network_same_timing 0 10 0 (fun _ => false) 1 (by norm_num)

theorem mem_of_lookup_eq_some {β : Type} :
    ∀ (l : List (String × β)) (u : String) (m : β), l.lookup u = some m → (u, m) ∈ l
  | [], _, _, h => by simp [List.lookup] at h
  | (a, b) :: t, u, m, h => by
    simp only [List.lookup] at h
    cases hb : (u == a) with
    | true =>
      rw [hb] at h
      simp only [Option.some.injEq] at h
      subst h
      have : u = a := by simpa using hb
      subst this
      exact List.mem_cons_self _ _
    | false =>
      rw [hb] at h
      exact List.mem_cons_of_mem _ (mem_of_lookup_eq_some t u m h)

theorem assoc_lookup_none {β : Type} :
    ∀ (l : List (String × β)) (u : String), (∀ p ∈ l, u ≠ p.1) → l.lookup u = none
  | [], _, _ => rfl
  | (a, b) :: t, u, h => by
    simp only [List.lookup]
    have hb : (u == a) = false := by
      have := h (a, b) (List.mem_cons_self _ _)
      simpa using this
    rw [hb]
    exact assoc_lookup_none t u fun p hp => h p (List.mem_cons_of_mem _ hp)

theorem lookup_on_off {β : Type} (a b : β) (v : String) :
    (([("on", a), ("off", b)] : List (String × β)).lookup v) =
      (if v = "on" then some a else if v = "off" then some b else none) := by
  simp only [List.lookup]
  cases hb1 : (v == "on") <;> cases hb2 : (v == "off") <;> simp_all

/-- C9: for every flag and every variant name, the variant table emitted
into the flag document agrees pointwise with the validation lookup: looking
the variant up in get_all_variants gives exactly get_variant_value, so a
variant is a key of the emitted table precisely when validation accepts it,
with the same value. -/
theorem variants_table_agrees_with_resolve (flag_name variant : String) :
    (get_all_variants flag_name).lookup variant = get_variant_value flag_name variant := by
  unfold get_all_variants get_variant_value
  split_ifs <;> simp_all [lookup_on_off]

/-- C7: whenever validation rejects the fault and variant pair, set_flag
returns failure with an empty list of posted documents: no HTTP request is
issued and the external state is untouched. -/
theorem set_flag_invalid_no_network (http : FlagDocument → HttpResult)
    (flag_name variant : String) (h : get_variant_value flag_name variant = none) :
    set_flag http flag_name variant = (false, []) := by
  simp [set_flag, h]

theorem set_flag_invalid_no_network_witness :
    set_flag (fun _ => HttpResult.status 200) "unknownFault" "on" = (false, []) :=
  set_flag_invalid_no_network (fun _ => HttpResult.status 200) "unknownFault" "on"
    (by decide)

theorem choice_mem (seed ctr : Nat) (xs : List String) (h : xs ≠ []) :
    choice seed ctr xs ∈ xs := by
  cases xs with
  | nil => exact absurd rfl h
  | cons a t => exact List.get_mem _ _ _

/-- C10: every fault and variant pair the driver can draw (the fault from
its available_flags table, the variant from the non-off variant list of
that fault) is accepted by the Setter validation, and the drawn variant is
never off. -/
theorem drawn_pair_always_valid (seed ctr : Nat) :
    (get_variant_value (get_random_flag_variant seed ctr).1
      (get_random_flag_variant seed ctr).2).isSome = true ∧
    (get_random_flag_variant seed ctr).2 ≠ "off" := by
  have htable : ∀ f ∈ flag_names, ∀ v ∈ (available_flags.lookup f).getD [],
      ((get_variant_value f v).isSome && !(v == "off")) = true := by decide
  have hne : ∀ f ∈ flag_names, (available_flags.lookup f).getD [] ≠ [] := by decide
  unfold get_random_flag_variant
  simp only []
  have hf : choice seed ctr flag_names ∈ flag_names := choice_mem _ _ _ (by decide)
  have hv : choice seed (ctr + 1)
        ((available_flags.lookup (choice seed ctr flag_names)).getD []) ∈
      (available_flags.lookup (choice seed ctr flag_names)).getD [] :=
    choice_mem _ _ _ (hne _ hf)
  have hres := htable _ hf _ hv
  simp only [Bool.and_eq_true, Bool.not_eq_true', beq_eq_false_iff_ne] at hres
  exact ⟨hres.1, hres.2⟩

/-- C5: get_variant_value agrees with the specification catalog table on
every fault and variant pair: pairs in the table (the active variants with
their documented wire values, and off mapping to false or 0 by type) get
exactly the documented value, and every pair outside the table (unknown
fault, or variant not in the table of that fault) is signalled invalid. -/
theorem resolve_value_matches_spec (fault variant : String) :
    get_variant_value fault variant = spec_resolveValue fault variant := by
  by_cases h1 : fault = "productCatalogFailure"
  · subst h1
    simp [get_variant_value, spec_resolveValue, spec_catalog, boolean_flags,
      numeric_flags, List.lookup]
    cases hv1 : (variant == "on") <;> cases hv2 : (variant == "off") <;> simp_all
  by_cases h2 : fault = "recommendationCacheFailure"
  · subst h2
    simp [get_variant_value, spec_resolveValue, spec_catalog, boolean_flags,
      numeric_flags, List.lookup]
    cases hv1 : (variant == "on") <;> cases hv2 : (variant == "off") <;> simp_all
  by_cases h3 : fault = "adManualGc"
  · subst h3
    simp [get_variant_value, spec_resolveValue, spec_catalog, boolean_flags,
      numeric_flags, List.lookup]
    cases hv1 : (variant == "on") <;> cases hv2 : (variant == "off") <;> simp_all
  by_cases h4 : fault = "adHighCpu"
  · subst h4
    simp [get_variant_value, spec_resolveValue, spec_catalog, boolean_flags,
      numeric_flags, List.lookup]
    cases hv1 : (variant == "on") <;> cases hv2 : (variant == "off") <;> simp_all
  by_cases h5 : fault = "adFailure"
  · subst h5
    simp [get_variant_value, spec_resolveValue, spec_catalog, boolean_flags,
      numeric_flags, List.lookup]
    cases hv1 : (variant == "on") <;> cases hv2 : (variant == "off") <;> simp_all
  by_cases h6 : fault = "kafkaQueueProblems"
  · subst h6
    simp [get_variant_value, spec_resolveValue, spec_catalog, boolean_flags,
      numeric_flags, List.lookup]
    cases hv1 : (variant == "on") <;> cases hv2 : (variant == "off") <;> simp_all
  by_cases h7 : fault = "cartFailure"
  · subst h7
    simp [get_variant_value, spec_resolveValue, spec_catalog, boolean_flags,
      numeric_flags, List.lookup]
    cases hv1 : (variant == "on") <;> cases hv2 : (variant == "off") <;> simp_all
  by_cases h8 : fault = "paymentFailure"
  · subst h8
    simp [get_variant_value, spec_resolveValue, spec_catalog, boolean_flags,
      numeric_flags, List.lookup]
  by_cases h9 : fault = "paymentUnreachable"
  · subst h9
    simp [get_variant_value, spec_resolveValue, spec_catalog, boolean_flags,
      numeric_flags, List.lookup]
    cases hv1 : (variant == "on") <;> cases hv2 : (variant == "off") <;> simp_all
  by_cases h10 : fault = "loadGeneratorFloodHomepage"
  · subst h10
    simp [get_variant_value, spec_resolveValue, spec_catalog, boolean_flags,
      numeric_flags, List.lookup]
    cases hv1 : (variant == "on") <;> cases hv2 : (variant == "off") <;> simp_all
  by_cases h11 : fault = "imageSlowLoad"
  · subst h11
    simp [get_variant_value, spec_resolveValue, spec_catalog, boolean_flags,
      numeric_flags, List.lookup]
  have hspec : spec_catalog.lookup fault = none := by
    apply assoc_lookup_none
    intro p hp
    fin_cases hp <;> simp_all
  have hb : fault ∉ boolean_flags := by
    simp [boolean_flags, h1, h2, h3, h4, h5, h7, h9]
  have hn : fault ∉ numeric_flags := by
    simp [numeric_flags, h6, h10]
  simp [get_variant_value, spec_resolveValue, hspec, hb, hn, h8, h11]

/-- C4: for every known target fault f and every variant v, construct_json
emits a document whose flags object has exactly the eleven known faults in
order, each with its description, state ENABLED and full variant table; the
default variant of the target fault is v, productCatalogFailure defaults to
on unless it is itself the target, and every other fault defaults to off. -/
theorem construct_json_layout (f v : String) (hf : f ∈ all_flags) :
    ((construct_json f v).flags.map Prod.fst = all_flags) ∧
    (∀ g e, (g, e) ∈ (construct_json f v).flags →
      e.description = get_flag_description g ∧ e.state = "ENABLED" ∧
      e.variants = get_all_variants g ∧
      e.defaultVariant =
        (if g = f then v else if g = "productCatalogFailure" then "on" else "off")) ∧
    (∃ e, (f, e) ∈ (construct_json f v).flags ∧ e.defaultVariant = v) := by
  refine ⟨rfl, ?_, ?_⟩
  · intro g e hge
    simp only [construct_json, List.mem_map] at hge
    obtain ⟨n, hn, heq⟩ := hge
    injection heq with hg he
    subst hg
    subst he
    exact ⟨rfl, rfl, rfl, rfl⟩
  · refine ⟨_, List.mem_map.mpr ⟨f, hf, rfl⟩, ?_⟩
    simp

theorem construct_json_layout_witness :
    (((construct_json "paymentFailure" "50%").flags.map Prod.fst = all_flags) ∧
     (∀ g e, (g, e) ∈ (construct_json "paymentFailure" "50%").flags →
       e.description = get_flag_description g ∧ e.state = "ENABLED" ∧
       e.variants = get_all_variants g ∧
       e.defaultVariant =
         (if g = "paymentFailure" then "50%"
          else if g = "productCatalogFailure" then "on" else "off")) ∧
     (∃ e, ("paymentFailure", e) ∈ (construct_json "paymentFailure" "50%").flags ∧
       e.defaultVariant = "50%")) :=
  construct_json_layout "paymentFailure" "50%" (by decide)

theorem unit_multiplier_pos (u : String) (m : Nat)
    (h : unit_multipliers.lookup u = some m) : 0 < m := by
  have hmem := mem_of_lookup_eq_some unit_multipliers u m h
  have htable : ∀ p ∈ unit_multipliers, 0 < p.2 := by decide
  exact htable _ hmem

/-- C3 counterexample: the string 15min99 is not of the interval grammar of
the specification, yet parse_interval accepts it and returns 900 instead of
the invalid signal 0, because the regex match is anchored at the start of
the string only and ignores trailing characters. -/
theorem parse_interval_trailing_cex :
    spec_interval_grammar "15min99" = false ∧ parse_interval "15min99" = 900 :=
  ⟨by decide, by decide⟩

/-- C3 (amended): for every string of the grammar, parse_interval returns
the exact second count, a positive number distinct from the invalid signal
0. Strings outside the grammar are however not all rejected: the match only
anchors at the start, so a valid number-and-unit prefix with trailing
characters (such as 15min99) is accepted as if the trailing characters were
absent, and only strings without such a prefix return 0. -/
theorem parse_interval_grammar_exact (s : String) (h : spec_interval_grammar s = true) :
    parse_interval s = spec_interval_seconds s ∧ parse_interval s ≠ 0 := by
  unfold spec_interval_grammar at h
  simp only [Bool.and_eq_true, Bool.not_eq_true', decide_eq_true_eq,
    Option.isSome_iff_exists] at h
  obtain ⟨⟨⟨⟨hd, hpos⟩, hrne⟩, hall⟩, m, hm⟩ := h
  have hletters : (s.toList.dropWhile Char.isDigit).takeWhile Char.isAlpha
      = s.toList.dropWhile Char.isDigit :=
    List.takeWhile_eq_self_iff.mpr (fun a ha => List.all_eq_true.mp hall a ha)
  simp only [parse_interval, spec_interval_seconds]
  rw [hletters]
  rw [if_neg (by simp only [hd, hrne]; decide)]
  rw [hm]
  refine ⟨by simp, ?_⟩
  have hmpos := unit_multiplier_pos _ _ hm
  exact Nat.mul_ne_zero (by omega) (by omega)

theorem parse_interval_grammar_exact_witness :
    parse_interval "15min" = spec_interval_seconds "15min" ∧ parse_interval "15min" ≠ 0 :=
  parse_interval_grammar_exact "15min" (by decide)

example : parse_interval "15min" = 900 := by decide
example : parse_interval "1h" = 3600 := by decide
example : parse_interval "2day" = 172800 := by decide
example : parse_interval "30sec" = 30 := by decide
example : parse_interval "15min99" = 900 := by decide
example : spec_interval_grammar "15min99" = false := by decide
